import Mathlib

/-!
# CustomArt1 server: the four route handlers of `src/server/index.js`

A shallow embedding of the Express handlers

* `POST /api/orders`               (`ordersHandler`)
* `POST /api/capture/:paymentId`   (`captureHandler`)
* `GET  /api/razorpay-key`         (`keyHandler`)
* `GET  /`                         (`rootHandler`)

The three remote collaborators (Razorpay, Cloudinary, the Mongoose `Image` model) are
not part of the repository.  They are parameters of the model (`Services`): each remote
call is a function from the arguments of the call to either a result or a thrown error.
A handler returns an `Outcome`: the HTTP response, the list of remote calls it made, in
order, and the Image Record collection after the request.

Conventions of the embedding:

* JavaScript values that reach the handlers (parsed JSON) are `JsVal`; a number of a body
  is an integer (a JSON number without fraction, itself a double), a string is the list of
  its characters;
* the product `amount * 100` is the product of doubles: the exact product rounded to the
  nearest double, ties to the even significand, infinite beyond the largest double
  (`toDouble`);
* a response body is the value handed to `res.json` or `res.send`, before serialisation;
* `console.log` and `console.error` have no effect on responses, calls or records and
  are left out;
* a thrown value is an object (`JsError`) and a resolved payment is an object
  (`Payment`), as the Razorpay client produces them;
* a rejected `save()` leaves the collection as it was (the contract assumed of the store).
-/

namespace CustomArt

/-! ## JavaScript values -/

/-- A JavaScript value as produced by parsing a JSON body, plus `undefined` for an absent
property. -/
inductive JsVal where
  | undefined
  | null
  | bool (b : Bool)
  | num (n : Int)
  | str (s : String)
  | arr (items : List JsVal)
  | obj (fields : List (String × JsVal))

/-- ToBoolean: `undefined`, `null`, `false`, `0` and the empty string are falsy, every
other value (arrays and objects included) is truthy. -/
def JsVal.truthy : JsVal → Bool
  | .undefined => false
  | .null => false
  | .bool b => b
  | .num n => n != 0
  | .str s => s != ""
  | .arr _ => true
  | .obj _ => true

/-- Strict comparison `v === s` of a value with a string literal. -/
def JsVal.strictEqStr : JsVal → String → Bool
  | .str t, s => t == s
  | _, _ => false

/-- Look a key up in the property list of an object. -/
def lookupField (name : String) : List (String × JsVal) → JsVal
  | [] => .undefined
  | (k, v) :: rest => if k == name then v else lookupField name rest

/-- The property read `v.description` on a truthy value: the own property of an object,
`undefined` on strings, numbers, booleans and arrays. -/
def JsVal.description : JsVal → JsVal
  | .obj fields => lookupField "description" fields
  | _ => .undefined

/-- Does the object have an own property of this name? -/
def hasKey (name : String) : List (String × JsVal) → Bool
  | [] => false
  | (k, _) :: rest => k == name || hasKey name rest

mutual
/-- Does the conversion of a parsed JSON value to a string complete? It throws a
`TypeError` on an object with an own property `toString` (never a function in parsed
JSON, and the inherited `valueOf` returns the object itself), and an array converts each
of its elements. -/
def stringifies : JsVal → Bool
  | .obj fields => !(hasKey "toString" fields)
  | .arr items => stringifiesAll items
  | _ => true
/-- Do all the elements of an array convert to a string? -/
def stringifiesAll : List JsVal → Bool
  | [] => true
  | v :: rest => stringifies v && stringifiesAll rest
end

/-- The value of an arithmetic expression on integers: an integer-valued double or an
infinity. -/
inductive JsNumber where
  | int (n : Int)
  | infinity (negative : Bool)
  deriving DecidableEq

/-- The number of halvings that bring `n` below `2 ^ 53`, counted up to `fuel`: the binary
exponent of the unit in the last place of the double nearest to `n`. -/
def halvings : Nat → Nat → Nat
  | 0, _ => 0
  | fuel + 1, n => if n < 9007199254740992 then 0 else halvings fuel (n / 2) + 1

/-- Round a natural number to 53 significant bits, to nearest, ties to the even
significand. -/
def roundMagnitude (n : Nat) : Nat :=
  if 2 * (n % 2 ^ halvings 1024 n) < 2 ^ halvings 1024 n then
    n / 2 ^ halvings 1024 n * 2 ^ halvings 1024 n
  else if 2 ^ halvings 1024 n < 2 * (n % 2 ^ halvings 1024 n) then
    (n / 2 ^ halvings 1024 n + 1) * 2 ^ halvings 1024 n
  else if n / 2 ^ halvings 1024 n % 2 = 0 then
    n / 2 ^ halvings 1024 n * 2 ^ halvings 1024 n
  else (n / 2 ^ halvings 1024 n + 1) * 2 ^ halvings 1024 n

/-- The double nearest to the integer `z`: the rounded magnitude with the sign of `z` when
it is below `2 ^ 1024` (at most 971 halvings), an infinity otherwise. -/
def toDouble (z : Int) : JsNumber :=
  if halvings 1024 (roundMagnitude z.natAbs) ≤ 971 then
    .int (if z < 0 then -(roundMagnitude z.natAbs : Int) else (roundMagnitude z.natAbs : Int))
  else .infinity (decide (z < 0))

/-- The expression `amount * 100` of lines 48 and 73 on an integer-valued `amount`. -/
def times100 (amount : Int) : JsNumber :=
  toDouble (amount * 100)

/-- A thrown value: the two properties the handlers read from it, `message` and `error`
(`undefined` when the property is absent). -/
structure JsError where
  message : JsVal
  error : JsVal

/-- The `TypeError` raised by calling a property that is not a function. -/
def typeError (msg : String) : JsError :=
  { message := .str msg, error := .undefined }

/-! ## Collaborators -/

/-- The payment object resolved by the gateway; the handler reads its `status` only. -/
structure Payment where
  status : JsVal

/-- The `options` object passed to `razorpay.orders.create`. -/
structure OrderOptions where
  amount : JsNumber
  currency : String
  receipt : String
  deriving DecidableEq

/-- The part of the Cloudinary upload response that the handler reads. -/
structure UploadResponse where
  secure_url : String
  deriving DecidableEq

/-- A document of the `Image` model (`ImageSchema`: one field, `url`). -/
structure ImageRecord where
  url : String
  deriving DecidableEq

/-- A call made to a collaborator, with its arguments. -/
inductive Call where
  | ordersCreate (options : OrderOptions)
  | paymentsCapture (paymentId : String) (amount : JsNumber) (currency : String)
  | paymentsFetch (paymentId : String)
  | upload (file : String) (folder : String)
  | save (url : String)
  deriving DecidableEq

/-- The behaviour of the three collaborators during one request. -/
structure Services where
  ordersCreate : OrderOptions → Except JsError JsVal
  paymentsCapture : String → JsNumber → String → Except JsError Payment
  paymentsFetch : String → Except JsError Payment
  upload : String → String → Except JsError UploadResponse
  save : List ImageRecord → ImageRecord → Except JsError Unit

/-- The object `process.env`: the six variables read by `index.js`; `none` is an unset variable. -/
structure Env where
  MONGO_URL : Option String
  CLOUDINARY_CLOUD_NAME : Option String
  CLOUDINARY_API_KEY : Option String
  CLOUDINARY_API_SECRET : Option String
  RAZORPAY_KEY_ID : Option String
  RAZORPAY_KEY_SECRET : Option String
  deriving DecidableEq

/-- The value of `process.env.X`. -/
def envVal : Option String → JsVal
  | some s => .str s
  | none => .undefined

/-! ## Responses and outcomes -/

/-- A response body: `res.json(v)` or `res.send(text)`. -/
inductive Body where
  | json (v : JsVal)
  | text (s : String)

/-- An HTTP response: status code (200 unless `res.status` was called) and body. -/
structure Response where
  status : Nat
  body : Body

/-- What one request did: the response, the collaborator calls in order, and the Image
Record collection afterwards. -/
structure Outcome where
  response : Response
  calls : List Call
  store : List ImageRecord

/-! ## `POST /api/orders` -/

/-- The body of an order request: `amount`. -/
structure OrderRequest where
  amount : Int
  deriving DecidableEq

/-- The receipt identifier built from the clock reading `Date.now()` (line 46). A clock
reading is a whole number of milliseconds, far below the size from which a number is
rendered with an exponent, so the template renders it in plain decimal. -/
def receiptId (now : Nat) : String :=
  "receipt_order_" ++ toString now

/-- Lines 44 to 60. `now` is the value of `Date.now()`. -/
def ordersHandler (svc : Services) (store : List ImageRecord) (now : Nat)
    (req : OrderRequest) : Outcome :=
  let options : OrderOptions :=
    { amount := times100 req.amount, currency := "INR", receipt := receiptId now }
  match svc.ordersCreate options with
  | .ok order =>
    { response := { status := 200, body := .json order },
      calls := [.ordersCreate options], store := store }
  | .error _ =>
    { response := { status := 500, body := .text "Error creating order" },
      calls := [.ordersCreate options], store := store }

/-! ## `POST /api/capture/:paymentId` -/

/-- The path parameter and the two body fields of a capture request. -/
structure CaptureRequest where
  paymentId : String
  amount : Int
  image : JsVal

/-- Line 68: the preview `image.slice(0, 100)` is evaluated and put in a template string
when `image` is truthy. Strings and arrays have a `slice` method; on any other truthy
value the call throws. The slice of an array is then converted to a string, element by
element, which throws when an element does not convert. -/
def imagePreview (image : JsVal) : Except JsError Unit :=
  if image.truthy then
    match image with
    | .str _ => .ok ()
    | .arr items =>
      if stringifiesAll (items.take 100) then .ok ()
      else .error (typeError "Cannot convert object to primitive value")
    | _ => .error (typeError "image.slice is not a function")
  else .ok ()

/-- The test of line 76 on a capture error:
`captureError.error && captureError.error.description === ...`. -/
def alreadyCaptured (captureError : JsError) : Bool :=
  captureError.error.truthy &&
    captureError.error.description.strictEqStr "This payment has already been captured"

/-- Lines 70 to 81: capture, with the fetch fallback. Returns the payment or the thrown
error, and the gateway calls made. -/
def captureStep (svc : Services) (req : CaptureRequest) :
    Except JsError Payment × List Call :=
  match svc.paymentsCapture req.paymentId (times100 req.amount) "INR" with
  | .ok payment => (.ok payment, [.paymentsCapture req.paymentId (times100 req.amount) "INR"])
  | .error captureError =>
    if alreadyCaptured captureError then
      match svc.paymentsFetch req.paymentId with
      | .ok payment =>
        (.ok payment, [.paymentsCapture req.paymentId (times100 req.amount) "INR",
          .paymentsFetch req.paymentId])
      | .error fetchError =>
        (.error fetchError, [.paymentsCapture req.paymentId (times100 req.amount) "INR",
          .paymentsFetch req.paymentId])
    else
      (.error captureError, [.paymentsCapture req.paymentId (times100 req.amount) "INR"])

/-- The class `\w` of a regular expression without the unicode flag. -/
def isWordChar (c : Char) : Bool :=
  c.isAlphanum || c == '_'

/-- Remove the literal `lit` from the front of `s`, if `s` starts with it. -/
def dropLiteral : List Char → List Char → Option (List Char)
  | [], s => some s
  | _ :: _, [] => none
  | l :: lit, c :: s => if l = c then dropLiteral lit s else none

/-- Match `/^data:image\/\w+;base64,/` at the start of `s`; the result is what follows
the match. `\w+` is greedy and the character after it is `;`, which is not a word
character, so the only candidate is the longest run of word characters. -/
def matchDataUrlHead (s : List Char) : Option (List Char) :=
  match dropLiteral "data:image/".toList s with
  | none => none
  | some [] => none
  | some (c :: rest) =>
    if isWordChar c then dropLiteral ";base64,".toList (rest.dropWhile isWordChar)
    else none

/-- Line 93 on a string: `image.replace(/^data:image\/\w+;base64,/, "")`. -/
def base64Data (image : String) : String :=
  match matchDataUrlHead image.toList with
  | some rest => String.mk rest
  | none => image

/-- Line 93 on any truthy value: only strings have a `replace` method. -/
def imageReplace : JsVal → Except JsError String
  | .str s => .ok (base64Data s)
  | _ => .error (typeError "image.replace is not a function")

/-- The outer `catch` (lines 108 to 111). -/
def errorResponse (error : JsError) : Response :=
  { status := 500,
    body := .json (.obj [("error",
      if error.message.truthy then error.message
      else .str "Error in payment capture process")]) }

/-- The response of line 84. -/
def notCapturedResponse : Response :=
  { status := 500, body := .json (.obj [("error", .str "Payment not captured")]) }

/-- The response of line 90. -/
def noImageResponse : Response :=
  { status := 400, body := .json (.obj [("error", .str "No image data received")]) }

/-- The response of line 106. -/
def successResponse (secureUrl : String) : Response :=
  { status := 200,
    body := .json (.obj [("message", .str "Payment successful and image uploaded"),
      ("imageUrl", .str secureUrl)]) }

/-- Lines 83 to 106: what the handler does once the capture step has produced `payment`,
having made the gateway calls `calls`. -/
def afterCapture (svc : Services) (store : List ImageRecord) (req : CaptureRequest)
    (payment : Payment) (calls : List Call) : Outcome :=
  if !(payment.status.strictEqStr "captured") then
    { response := notCapturedResponse, calls := calls, store := store }
  else if !req.image.truthy then
    { response := noImageResponse, calls := calls, store := store }
  else
    match imageReplace req.image with
    | .error e => { response := errorResponse e, calls := calls, store := store }
    | .ok data =>
      match svc.upload ("data:image/png;base64," ++ data) "custom_shirts" with
      | .error e =>
        { response := errorResponse e,
          calls := calls ++ [.upload ("data:image/png;base64," ++ data) "custom_shirts"],
          store := store }
      | .ok uploadResponse =>
        match svc.save store { url := uploadResponse.secure_url } with
        | .error e =>
          { response := errorResponse e,
            calls := calls ++ [.upload ("data:image/png;base64," ++ data) "custom_shirts",
              .save uploadResponse.secure_url],
            store := store }
        | .ok _ =>
          { response := successResponse uploadResponse.secure_url,
            calls := calls ++ [.upload ("data:image/png;base64," ++ data) "custom_shirts",
              .save uploadResponse.secure_url],
            store := store ++ [{ url := uploadResponse.secure_url }] }

/-- Lines 63 to 112. -/
def captureHandler (svc : Services) (store : List ImageRecord) (req : CaptureRequest) :
    Outcome :=
  match imagePreview req.image with
  | .error e => { response := errorResponse e, calls := [], store := store }
  | .ok _ =>
    match captureStep svc req with
    | (.error e, calls) => { response := errorResponse e, calls := calls, store := store }
    | (.ok payment, calls) => afterCapture svc store req payment calls

/-! ## `GET /api/razorpay-key` and `GET /` -/

/-- Lines 113 to 115. -/
def keyHandler (env : Env) (store : List ImageRecord) : Outcome :=
  { response := { status := 200, body := .json (.obj [("key", envVal env.RAZORPAY_KEY_ID)]) },
    calls := [], store := store }

/-- Lines 118 to 120. -/
def rootHandler (store : List ImageRecord) : Outcome :=
  { response := { status := 200, body := .text "Hello World!" }, calls := [], store := store }

/-! ## The server as a whole -/

/-- A request to one of the four routes. -/
inductive Request where
  | orders (now : Nat) (req : OrderRequest)
  | capture (req : CaptureRequest)
  | key
  | root

/-- Routing. -/
def handle (env : Env) (svc : Services) (store : List ImageRecord) : Request → Outcome
  | .orders now req => ordersHandler svc store now req
  | .capture req => captureHandler svc store req
  | .key => keyHandler env store
  | .root => rootHandler store

/-! ## Sample collaborators and requests

Concrete values on which the theorems below are instantiated. -/

/-- The error object with which the gateway rejects the capture of a payment that is
already captured. -/
def alreadyCapturedError : JsError :=
  { message := .undefined,
    error := .obj [("code", .str "BAD_REQUEST_ERROR"),
      ("description", .str "This payment has already been captured")] }

/-- A gateway error of another kind. -/
def badRequestError : JsError :=
  { message := .undefined,
    error := .obj [("code", .str "BAD_REQUEST_ERROR"),
      ("description", .str "The id provided does not exist")] }

/-- An error carrying a message, as the media host and the store raise them. -/
def timeoutError : JsError :=
  { message := .str "Request Timeout", error := .undefined }

/-- Collaborators that all succeed: the payment is captured, the upload is hosted under
its folder, the record is saved. -/
def sampleServices : Services :=
  { ordersCreate := fun options =>
      .ok (.obj [("id", .str "order_1"),
        ("amount", match options.amount with
          | .int n => .num n
          | .infinity _ => .null),
        ("currency", .str options.currency), ("receipt", .str options.receipt)]),
    paymentsCapture := fun _ _ _ => .ok { status := .str "captured" },
    paymentsFetch := fun _ => .ok { status := .str "captured" },
    upload := fun _ folder => .ok { secure_url := "https://media.example/" ++ folder ++ "/1.png" },
    save := fun _ _ => .ok () }

/-- A capture request carrying a JPEG data URL. -/
def sampleRequest : CaptureRequest :=
  { paymentId := "pay_1", amount := 499, image := .str "data:image/jpeg;base64,AAAA" }

/-- An environment with every variable set. -/
def sampleEnv : Env :=
  { MONGO_URL := some "mongodb://db.example/art",
    CLOUDINARY_CLOUD_NAME := some "demo",
    CLOUDINARY_API_KEY := some "1234",
    CLOUDINARY_API_SECRET := some "media-secret",
    RAZORPAY_KEY_ID := some "rzp_test_1",
    RAZORPAY_KEY_SECRET := some "gateway-secret" }

/-! ## Auxiliary lemmas -/

/-! ### Decimal rendering of a natural number -/

theorem digitChar_value (k : Nat) (h : k < 10) : (Nat.digitChar k).toNat - 48 = k := by
  interval_cases k <;> rfl

theorem digitChar_isDigit (k : Nat) (h : k < 10) : (Nat.digitChar k).isDigit = true := by
  interval_cases k <;> rfl

theorem decode_toDigitsCore (fuel : Nat) : ∀ (n : Nat) (ds : List Char), n < fuel →
    List.foldl (fun acc c => acc * 10 + (c.toNat - 48)) 0 (Nat.toDigitsCore 10 fuel n ds)
      = List.foldl (fun acc c => acc * 10 + (c.toNat - 48)) n ds := by
  induction fuel with
  | zero => intro n ds h; omega
  | succ fuel ih =>
    intro n ds h
    unfold Nat.toDigitsCore
    have hd : (Nat.digitChar (n % 10)).toNat - 48 = n % 10 :=
      digitChar_value _ (Nat.mod_lt _ (by decide))
    by_cases h0 : n / 10 = 0
    · simp only [h0, if_true, List.foldl_cons, hd]
      congr 1
      omega
    · simp only [h0, if_false]
      rw [ih (n / 10) _ (by omega)]
      simp only [List.foldl_cons, hd]
      congr 1
      omega

theorem isDigit_toDigitsCore (fuel : Nat) : ∀ (n : Nat) (ds : List Char),
    (∀ c ∈ ds, c.isDigit = true) →
    ∀ c ∈ Nat.toDigitsCore 10 fuel n ds, c.isDigit = true := by
  induction fuel with
  | zero => intro n ds h; simpa [Nat.toDigitsCore] using h
  | succ fuel ih =>
    intro n ds h
    unfold Nat.toDigitsCore
    have hd : (Nat.digitChar (n % 10)).isDigit = true :=
      digitChar_isDigit _ (Nat.mod_lt _ (by decide))
    have hds : ∀ c ∈ Nat.digitChar (n % 10) :: ds, c.isDigit = true := by
      intro c hc
      rcases List.mem_cons.mp hc with rfl | hc
      · exact hd
      · exact h c hc
    by_cases h0 : n / 10 = 0
    · simpa only [h0, if_true] using hds
    · simpa only [h0, if_false] using ih (n / 10) _ hds

theorem decode_toString (n : Nat) :
    List.foldl (fun acc c => acc * 10 + (c.toNat - 48)) 0 (toString n).toList = n := by
  have h := decode_toDigitsCore (n + 1) n [] (Nat.lt_succ_self n)
  simpa [toString, Nat.repr, Nat.toDigits] using h

theorem isDigit_toString (n : Nat) : ∀ c ∈ (toString n).toList, c.isDigit = true := by
  have h := isDigit_toDigitsCore (n + 1) n [] (by simp)
  simpa [toString, Nat.repr, Nat.toDigits] using h

theorem toString_nat_injective (m n : Nat) (h : toString m = toString n) : m = n := by
  have hm := decode_toString m
  rw [h, decode_toString n] at hm
  exact hm.symm

theorem receiptId_injective (m n : Nat) (h : receiptId m = receiptId n) : m = n := by
  apply toString_nat_injective
  have h2 := congrArg String.data h
  simp only [receiptId, String.data_append] at h2
  exact String.ext (List.append_cancel_left h2)

/-! ### The product of doubles -/

theorem halvings_small (n : Nat) (h : n < 9007199254740992) : halvings 1024 n = 0 := by
  show halvings (1023 + 1) n = 0
  simp [halvings, h]

theorem roundMagnitude_small (n : Nat) (h : n < 9007199254740992) : roundMagnitude n = n := by
  unfold roundMagnitude
  rw [halvings_small n h]
  simp [Nat.mod_one]

theorem toDouble_exact (z : Int) (h : z.natAbs < 9007199254740992) : toDouble z = .int z := by
  unfold toDouble
  rw [roundMagnitude_small _ h, halvings_small _ h]
  simp only [Nat.zero_le, if_true]
  congr 1
  split <;> omega

theorem times100_exact (a : Int) (hpos : 0 < a) (hle : a * 100 ≤ 9007199254740992) :
    times100 a = .int (a * 100) := by
  unfold times100
  apply toDouble_exact
  omega

/-! ### The data URL pattern -/

theorem dropLiteral_append (lit s : List Char) : dropLiteral lit (lit ++ s) = some s := by
  induction lit with
  | nil => rfl
  | cons l lit ih => simp [dropLiteral, ih]

theorem dropWhile_append_stop (p : Char → Bool) (l : List Char) (x : Char) (r : List Char)
    (hl : ∀ c ∈ l, p c = true) (hx : p x = false) :
    (l ++ x :: r).dropWhile p = x :: r := by
  induction l with
  | nil => simp [List.dropWhile, hx]
  | cons a l ih =>
    have ha : p a = true := hl a (List.mem_cons_self a l)
    have hl2 : ∀ c ∈ l, p c = true := fun c hc => hl c (List.mem_cons_of_mem a hc)
    simp [List.dropWhile, ha, ih hl2]

theorem matchDataUrlHead_word (t b : List Char) (hne : t ≠ [])
    (hw : ∀ c ∈ t, isWordChar c = true) :
    matchDataUrlHead ("data:image/".toList ++ (t ++ (";base64,".toList ++ b))) = some b := by
  cases t with
  | nil => exact absurd rfl hne
  | cons c t =>
    have hc : isWordChar c = true := hw c (List.mem_cons_self c t)
    have ht : ∀ d ∈ t, isWordChar d = true := fun d hd => hw d (List.mem_cons_of_mem c hd)
    have hdrop : (t ++ (";base64,".toList ++ b)).dropWhile isWordChar
        = ";base64,".toList ++ b :=
      dropWhile_append_stop isWordChar t ';' ("base64,".toList ++ b) ht (by decide)
    unfold matchDataUrlHead
    rw [dropLiteral_append]
    simp only [List.cons_append, hc, if_true]
    rw [hdrop, dropLiteral_append]

theorem base64Data_word (t b : String) (hne : t ≠ "")
    (hw : ∀ c ∈ t.toList, isWordChar c = true) :
    base64Data ("data:image/" ++ t ++ ";base64," ++ b) = b := by
  have hne2 : t.toList ≠ [] := by
    intro h
    apply hne
    exact String.ext h
  have hl : ("data:image/" ++ t ++ ";base64," ++ b).toList
      = "data:image/".toList ++ (t.toList ++ (";base64,".toList ++ b.toList)) := by
    simp [String.toList, String.data_append, List.append_assoc]
  unfold base64Data
  rw [hl, matchDataUrlHead_word t.toList b.toList hne2 hw]
  rfl

/-! ### Unfolding the capture handler -/

theorem strictEqStr_eq_true (v : JsVal) (s : String) :
    v.strictEqStr s = true ↔ v = .str s := by
  cases v <;> simp [JsVal.strictEqStr]

theorem truthy_str (s : String) : (JsVal.str s).truthy = true ↔ s ≠ "" := by
  simp [JsVal.truthy]

theorem imagePreview_str (s : String) : imagePreview (.str s) = .ok () := by
  unfold imagePreview
  split <;> rfl

theorem imagePreview_falsy (image : JsVal) (h : image.truthy = false) :
    imagePreview image = .ok () := by
  simp [imagePreview, h]

theorem captureStep_calls (svc : Services) (req : CaptureRequest) :
    (captureStep svc req).2 = [.paymentsCapture req.paymentId (times100 req.amount) "INR"] ∨
    (captureStep svc req).2 = [.paymentsCapture req.paymentId (times100 req.amount) "INR",
      .paymentsFetch req.paymentId] := by
  unfold captureStep
  split
  · exact Or.inl rfl
  · split
    · split
      · exact Or.inr rfl
      · exact Or.inr rfl
    · exact Or.inl rfl

theorem captureHandler_preview_error (svc : Services) (store : List ImageRecord)
    (req : CaptureRequest) (e : JsError) (h : imagePreview req.image = .error e) :
    captureHandler svc store req = { response := errorResponse e, calls := [], store := store } := by
  simp [captureHandler, h]

theorem captureHandler_step_ok (svc : Services) (store : List ImageRecord)
    (req : CaptureRequest) (p : Payment)
    (hpre : imagePreview req.image = .ok ()) (hstep : (captureStep svc req).1 = .ok p) :
    captureHandler svc store req = afterCapture svc store req p (captureStep svc req).2 := by
  unfold captureHandler
  rw [hpre]
  rcases hcs : captureStep svc req with ⟨r, calls⟩
  rw [hcs] at hstep
  simp only at hstep
  subst hstep
  rfl

theorem captureHandler_step_error (svc : Services) (store : List ImageRecord)
    (req : CaptureRequest) (e : JsError)
    (hpre : imagePreview req.image = .ok ()) (hstep : (captureStep svc req).1 = .error e) :
    captureHandler svc store req =
      { response := errorResponse e, calls := (captureStep svc req).2, store := store } := by
  unfold captureHandler
  rw [hpre]
  rcases hcs : captureStep svc req with ⟨r, calls⟩
  rw [hcs] at hstep
  simp only at hstep
  subst hstep
  rfl

theorem preview_ok_of_call (svc : Services) (store : List ImageRecord) (req : CaptureRequest)
    (c : Call) (h : c ∈ (captureHandler svc store req).calls) :
    imagePreview req.image = .ok () := by
  cases hpre : imagePreview req.image with
  | ok u => rfl
  | error e =>
    rw [captureHandler_preview_error svc store req e hpre] at h
    simp at h

theorem afterCapture_not_captured (svc : Services) (store : List ImageRecord)
    (req : CaptureRequest) (p : Payment) (calls : List Call)
    (h : p.status ≠ .str "captured") :
    afterCapture svc store req p calls =
      { response := notCapturedResponse, calls := calls, store := store } := by
  have h2 : p.status.strictEqStr "captured" = false := by
    cases hb : p.status.strictEqStr "captured" with
    | false => rfl
    | true => exact absurd ((strictEqStr_eq_true _ _).mp hb) h
  simp [afterCapture, h2]

theorem afterCapture_no_image (svc : Services) (store : List ImageRecord)
    (req : CaptureRequest) (p : Payment) (calls : List Call)
    (hcap : p.status = .str "captured") (himg : req.image.truthy = false) :
    afterCapture svc store req p calls =
      { response := noImageResponse, calls := calls, store := store } := by
  have h2 : p.status.strictEqStr "captured" = true := (strictEqStr_eq_true _ _).mpr hcap
  simp [afterCapture, h2, himg]

theorem afterCapture_string (svc : Services) (store : List ImageRecord)
    (req : CaptureRequest) (p : Payment) (calls : List Call) (s : String)
    (hcap : p.status = .str "captured") (himg : req.image = .str s) (hs : s ≠ "") :
    afterCapture svc store req p calls =
      match svc.upload ("data:image/png;base64," ++ base64Data s) "custom_shirts" with
      | .error e =>
        { response := errorResponse e,
          calls := calls ++ [.upload ("data:image/png;base64," ++ base64Data s) "custom_shirts"],
          store := store }
      | .ok uploadResponse =>
        match svc.save store { url := uploadResponse.secure_url } with
        | .error e =>
          { response := errorResponse e,
            calls := calls ++ [.upload ("data:image/png;base64," ++ base64Data s) "custom_shirts",
              .save uploadResponse.secure_url],
            store := store }
        | .ok _ =>
          { response := successResponse uploadResponse.secure_url,
            calls := calls ++ [.upload ("data:image/png;base64," ++ base64Data s) "custom_shirts",
              .save uploadResponse.secure_url],
            store := store ++ [{ url := uploadResponse.secure_url }] } := by
  have h2 : p.status.strictEqStr "captured" = true := (strictEqStr_eq_true _ _).mpr hcap
  have h3 : (JsVal.str s).truthy = true := (truthy_str s).mpr hs
  simp [afterCapture, h2, h3, himg, imageReplace]

theorem afterCapture_calls (svc : Services) (store : List ImageRecord)
    (req : CaptureRequest) (p : Payment) (calls : List Call) :
    ∃ extra, (afterCapture svc store req p calls).calls = calls ++ extra ∧
      ∀ c ∈ extra, (∃ file folder, c = .upload file folder) ∨ (∃ url, c = .save url) := by
  unfold afterCapture
  split
  · exact ⟨[], by simp, by simp⟩
  · split
    · exact ⟨[], by simp, by simp⟩
    · split
      · exact ⟨[], by simp, by simp⟩
      · split
        · exact ⟨_, rfl, by simp⟩
        · split
          · exact ⟨_, rfl, by simp⟩
          · exact ⟨_, rfl, by simp⟩

theorem afterCapture_store (svc : Services) (store : List ImageRecord)
    (req : CaptureRequest) (p : Payment) (calls : List Call) :
    (afterCapture svc store req p calls).store = store ∨
    ∃ url, (afterCapture svc store req p calls).response = successResponse url ∧
      (afterCapture svc store req p calls).store = store ++ [{ url := url }] := by
  unfold afterCapture
  split
  · exact Or.inl rfl
  · split
    · exact Or.inl rfl
    · split
      · exact Or.inl rfl
      · split
        · exact Or.inl rfl
        · split
          · exact Or.inl rfl
          · exact Or.inr ⟨_, rfl, rfl⟩

theorem captureStep_direct (svc : Services) (req : CaptureRequest) (p : Payment)
    (h : svc.paymentsCapture req.paymentId (times100 req.amount) "INR" = .ok p) :
    captureStep svc req =
      (.ok p, [.paymentsCapture req.paymentId (times100 req.amount) "INR"]) := by
  simp [captureStep, h]

theorem captureStep_other_error (svc : Services) (req : CaptureRequest) (e : JsError)
    (h : svc.paymentsCapture req.paymentId (times100 req.amount) "INR" = .error e)
    (hno : alreadyCaptured e = false) :
    captureStep svc req =
      (.error e, [.paymentsCapture req.paymentId (times100 req.amount) "INR"]) := by
  simp [captureStep, h, hno]

theorem captureStep_fetch (svc : Services) (req : CaptureRequest) (e : JsError)
    (h : svc.paymentsCapture req.paymentId (times100 req.amount) "INR" = .error e)
    (hyes : alreadyCaptured e = true) :
    captureStep svc req =
      (svc.paymentsFetch req.paymentId,
        [.paymentsCapture req.paymentId (times100 req.amount) "INR",
          .paymentsFetch req.paymentId]) := by
  unfold captureStep
  rw [h]
  simp only [hyes, if_true]
  cases svc.paymentsFetch req.paymentId <;> rfl

theorem alreadyCaptured_of_description (e : JsError)
    (h : e.error.description = .str "This payment has already been captured") :
    alreadyCaptured e = true := by
  unfold alreadyCaptured
  rw [h]
  cases he : e.error <;> simp [he, JsVal.description] at h
  simp [JsVal.truthy, JsVal.strictEqStr]

theorem captureStep_obtained (svc : Services) (req : CaptureRequest) (p : Payment)
    (hpay : svc.paymentsCapture req.paymentId (times100 req.amount) "INR" = .ok p ∨
      ∃ e, svc.paymentsCapture req.paymentId (times100 req.amount) "INR" = .error e ∧
        alreadyCaptured e = true ∧ svc.paymentsFetch req.paymentId = .ok p) :
    (captureStep svc req).1 = .ok p := by
  rcases hpay with h | ⟨e, h, hyes, hf⟩
  · rw [captureStep_direct svc req p h]
  · rw [captureStep_fetch svc req e h hyes, hf]

theorem captureStep_calls_no_upload (svc : Services) (req : CaptureRequest)
    (file folder : String) : Call.upload file folder ∉ (captureStep svc req).2 := by
  intro hmem
  rcases captureStep_calls svc req with hc | hc <;> simp [hc] at hmem

theorem captureStep_calls_no_save (svc : Services) (req : CaptureRequest)
    (url : String) : Call.save url ∉ (captureStep svc req).2 := by
  intro hmem
  rcases captureStep_calls svc req with hc | hc <;> simp [hc] at hmem

theorem captureStep_calls_head (svc : Services) (req : CaptureRequest) :
    Call.paymentsCapture req.paymentId (times100 req.amount) "INR" ∈ (captureStep svc req).2 := by
  rcases captureStep_calls svc req with hc | hc <;> simp [hc]

theorem afterCapture_string_calls (svc : Services) (store : List ImageRecord)
    (req : CaptureRequest) (p : Payment) (calls : List Call) (s : String)
    (hcap : p.status = .str "captured") (himg : req.image = .str s) (hs : s ≠ "") :
    ∃ tail, (afterCapture svc store req p calls).calls = calls ++
        (.upload ("data:image/png;base64," ++ base64Data s) "custom_shirts" :: tail) ∧
      ∀ c ∈ tail, ∃ url, c = .save url := by
  rw [afterCapture_string svc store req p calls s hcap himg hs]
  split
  · exact ⟨[], rfl, by simp⟩
  · split
    · exact ⟨_, rfl, by simp⟩
    · exact ⟨_, rfl, by simp⟩

theorem captureHandler_store (svc : Services) (store : List ImageRecord)
    (req : CaptureRequest) :
    (captureHandler svc store req).store = store ∨
    ∃ url, (captureHandler svc store req).response = successResponse url ∧
      (captureHandler svc store req).store = store ++ [{ url := url }] := by
  cases hpre : imagePreview req.image with
  | error e =>
    rw [captureHandler_preview_error svc store req e hpre]
    exact Or.inl rfl
  | ok u =>
    cases hstep : (captureStep svc req).1 with
    | error e =>
      rw [captureHandler_step_error svc store req e hpre hstep]
      exact Or.inl rfl
    | ok p =>
      rw [captureHandler_step_ok svc store req p hpre hstep]
      exact afterCapture_store svc store req p _

theorem captureHandler_capture_calls (svc : Services) (store : List ImageRecord)
    (req : CaptureRequest) :
    (captureHandler svc store req).calls = [] ∨
    ∃ rest, (captureHandler svc store req).calls =
        Call.paymentsCapture req.paymentId (times100 req.amount) "INR" :: rest ∧
      ∀ id amount currency, Call.paymentsCapture id amount currency ∉ rest := by
  cases hpre : imagePreview req.image with
  | error e =>
    rw [captureHandler_preview_error svc store req e hpre]
    exact Or.inl rfl
  | ok u =>
    right
    have hsplit : ∃ rest, (captureStep svc req).2 =
        Call.paymentsCapture req.paymentId (times100 req.amount) "INR" :: rest ∧
        ∀ id amount currency, Call.paymentsCapture id amount currency ∉ rest := by
      rcases captureStep_calls svc req with hc | hc
      · exact ⟨[], hc, by simp⟩
      · exact ⟨[.paymentsFetch req.paymentId], hc, by simp⟩
    obtain ⟨rest, hrest, hnone⟩ := hsplit
    cases hstep : (captureStep svc req).1 with
    | error e =>
      rw [captureHandler_step_error svc store req e hpre hstep]
      exact ⟨rest, hrest, hnone⟩
    | ok p =>
      rw [captureHandler_step_ok svc store req p hpre hstep]
      obtain ⟨extra, hextra, honly⟩ := afterCapture_calls svc store req p (captureStep svc req).2
      refine ⟨rest ++ extra, by rw [hextra, hrest]; rfl, ?_⟩
      intro id amount currency hmem
      rcases List.mem_append.mp hmem with h | h
      · exact hnone id amount currency h
      · rcases honly _ h with ⟨file, folder, h2⟩ | ⟨url, h2⟩ <;> cases h2

theorem digitChar_ne_zero (k : Nat) (h0 : 0 < k) (h : k < 10) : Nat.digitChar k ≠ '0' := by
  interval_cases k <;> decide

theorem head_toDigitsCore (fuel : Nat) : ∀ (n : Nat) (ds : List Char), 0 < n → n < fuel →
    (Nat.toDigitsCore 10 fuel n ds).head? ≠ some '0' := by
  induction fuel with
  | zero => intro n ds _ h; omega
  | succ fuel ih =>
    intro n ds hpos h
    unfold Nat.toDigitsCore
    by_cases h0 : n / 10 = 0
    · simp only [h0, if_true, List.head?_cons]
      have hlt : n < 10 := by omega
      have hmod : n % 10 = n := Nat.mod_eq_of_lt hlt
      rw [hmod]
      intro hc
      exact digitChar_ne_zero n hpos hlt (Option.some.inj hc)
    · simp only [h0, if_false]
      exact ih (n / 10) _ (Nat.pos_of_ne_zero h0) (by omega)

theorem head_toString (n : Nat) (h : 0 < n) : (toString n).toList.head? ≠ some '0' := by
  have h2 := head_toDigitsCore (n + 1) n [] h (Nat.lt_succ_self n)
  simpa [toString, Nat.repr, Nat.toDigits] using h2

/-! ## The claims -/

/-- C1: in a capture request that made the capture call and whose capture step (the direct
capture, or the fetch after the already-captured error) produced a payment `p` whose
status is not the string "captured", the response is 500 with the body
`{ error: "Payment not captured" }`, no upload call and no save call is made, and the
Image Records are unchanged, whatever the `image` field contains. -/
theorem c1_not_captured_rejected (svc : Services) (store : List ImageRecord)
    (req : CaptureRequest) (p : Payment)
    (hcall : Call.paymentsCapture req.paymentId (times100 req.amount) "INR"
      ∈ (captureHandler svc store req).calls)
    (hpay : svc.paymentsCapture req.paymentId (times100 req.amount) "INR" = .ok p ∨
      ∃ e, svc.paymentsCapture req.paymentId (times100 req.amount) "INR" = .error e ∧
        alreadyCaptured e = true ∧ svc.paymentsFetch req.paymentId = .ok p)
    (hstatus : p.status ≠ .str "captured") :
    (captureHandler svc store req).response =
      { status := 500, body := .json (.obj [("error", .str "Payment not captured")]) } ∧
    (∀ file folder, Call.upload file folder ∉ (captureHandler svc store req).calls) ∧
    (∀ url, Call.save url ∉ (captureHandler svc store req).calls) ∧
    (captureHandler svc store req).store = store := by
  have hpre := preview_ok_of_call svc store req _ hcall
  have hstep := captureStep_obtained svc req p hpay
  rw [captureHandler_step_ok svc store req p hpre hstep,
    afterCapture_not_captured svc store req p _ hstatus]
  exact ⟨rfl, captureStep_calls_no_upload svc req, captureStep_calls_no_save svc req, rfl⟩

/-- C1 at a concrete request: the gateway reports the payment as "authorized". -/
theorem c1_not_captured_rejected_witness :
    (captureHandler
        { sampleServices with paymentsCapture := fun _ _ _ => .ok { status := .str "authorized" } }
        [] sampleRequest).response =
      { status := 500, body := .json (.obj [("error", .str "Payment not captured")]) } ∧
    (captureHandler
        { sampleServices with paymentsCapture := fun _ _ _ => .ok { status := .str "authorized" } }
        [] sampleRequest).calls = [.paymentsCapture "pay_1" (.int 49900) "INR"] :=
  ⟨(c1_not_captured_rejected
      { sampleServices with paymentsCapture := fun _ _ _ => .ok { status := .str "authorized" } }
      [] sampleRequest { status := .str "authorized" }
      (by decide) (Or.inl rfl) (by simp)).1, by decide⟩

/-- C2: in a capture request whose capture step (the direct capture, or the fetch after
the already-captured error) produced a payment of status "captured" and whose `image` is
absent or the empty string, the response is 400 with the body
`{ error: "No image data received" }`; the calls made are those of the capture step (the
capture call among them, nothing undoes it), no upload call and no save call is made and
the Image Records are unchanged. -/
theorem c2_missing_image_rejected (svc : Services) (store : List ImageRecord)
    (req : CaptureRequest) (p : Payment)
    (hpay : svc.paymentsCapture req.paymentId (times100 req.amount) "INR" = .ok p ∨
      ∃ e, svc.paymentsCapture req.paymentId (times100 req.amount) "INR" = .error e ∧
        alreadyCaptured e = true ∧ svc.paymentsFetch req.paymentId = .ok p)
    (hstatus : p.status = .str "captured")
    (himg : req.image = .undefined ∨ req.image = .str "") :
    (captureHandler svc store req).response =
      { status := 400, body := .json (.obj [("error", .str "No image data received")]) } ∧
    (captureHandler svc store req).calls = (captureStep svc req).2 ∧
    Call.paymentsCapture req.paymentId (times100 req.amount) "INR"
      ∈ (captureHandler svc store req).calls ∧
    (∀ file folder, Call.upload file folder ∉ (captureHandler svc store req).calls) ∧
    (∀ url, Call.save url ∉ (captureHandler svc store req).calls) ∧
    (captureHandler svc store req).store = store := by
  have hfalsy : req.image.truthy = false := by
    rcases himg with h | h <;> rw [h] <;> rfl
  have hpre := imagePreview_falsy req.image hfalsy
  have hstep := captureStep_obtained svc req p hpay
  rw [captureHandler_step_ok svc store req p hpre hstep,
    afterCapture_no_image svc store req p _ hstatus hfalsy]
  exact ⟨rfl, rfl, captureStep_calls_head svc req, captureStep_calls_no_upload svc req,
    captureStep_calls_no_save svc req, rfl⟩

/-- C2 at a concrete request: the payment is captured and the body has no `image`. -/
theorem c2_missing_image_rejected_witness :
    (captureHandler sampleServices []
        { paymentId := "pay_1", amount := 499, image := .undefined }).response =
      { status := 400, body := .json (.obj [("error", .str "No image data received")]) } ∧
    (captureHandler sampleServices []
        { paymentId := "pay_1", amount := 499, image := .undefined }).calls =
      [.paymentsCapture "pay_1" (.int 49900) "INR"] :=
  ⟨(c2_missing_image_rejected sampleServices []
      { paymentId := "pay_1", amount := 499, image := .undefined }
      { status := .str "captured" } (Or.inl rfl) rfl (Or.inl rfl)).1, by decide⟩

/-- C3: when the capture call of a request is made and fails with an error whose
`error.description` is "This payment has already been captured", the handler calls
fetch-by-id for the same payment id, exactly once, right after the capture call; the
request then goes on exactly as lines 83 to 106 prescribe for the fetched payment (status
check, image check, upload, save), and when the fetch itself fails it is the fetch error
that is reported. In neither case does the outcome depend on the capture error. -/
theorem c3_already_captured_fetches (svc : Services) (store : List ImageRecord)
    (req : CaptureRequest) (captureError : JsError)
    (hcall : Call.paymentsCapture req.paymentId (times100 req.amount) "INR"
      ∈ (captureHandler svc store req).calls)
    (hfail : svc.paymentsCapture req.paymentId (times100 req.amount) "INR" = .error captureError)
    (hdesc : captureError.error.description = .str "This payment has already been captured") :
    (∃ rest, (captureHandler svc store req).calls =
        Call.paymentsCapture req.paymentId (times100 req.amount) "INR" ::
          Call.paymentsFetch req.paymentId :: rest ∧
        ∀ id, Call.paymentsFetch id ∉ rest) ∧
    (∀ p, svc.paymentsFetch req.paymentId = .ok p →
      captureHandler svc store req = afterCapture svc store req p
        [.paymentsCapture req.paymentId (times100 req.amount) "INR",
          .paymentsFetch req.paymentId]) ∧
    (∀ fetchError, svc.paymentsFetch req.paymentId = .error fetchError →
      captureHandler svc store req =
        { response := errorResponse fetchError,
          calls := [.paymentsCapture req.paymentId (times100 req.amount) "INR",
            .paymentsFetch req.paymentId],
          store := store }) := by
  have hpre := preview_ok_of_call svc store req _ hcall
  have hyes := alreadyCaptured_of_description captureError hdesc
  have hcs := captureStep_fetch svc req captureError hfail hyes
  have hok : ∀ p, svc.paymentsFetch req.paymentId = .ok p →
      captureHandler svc store req = afterCapture svc store req p
        [.paymentsCapture req.paymentId (times100 req.amount) "INR",
          .paymentsFetch req.paymentId] := by
    intro p hp
    have h1 : (captureStep svc req).1 = .ok p := by rw [hcs, hp]
    rw [captureHandler_step_ok svc store req p hpre h1, hcs]
  have herr : ∀ fetchError, svc.paymentsFetch req.paymentId = .error fetchError →
      captureHandler svc store req =
        { response := errorResponse fetchError,
          calls := [.paymentsCapture req.paymentId (times100 req.amount) "INR",
            .paymentsFetch req.paymentId],
          store := store } := by
    intro fetchError hp
    have h1 : (captureStep svc req).1 = .error fetchError := by rw [hcs, hp]
    rw [captureHandler_step_error svc store req fetchError hpre h1, hcs]
  refine ⟨?_, hok, herr⟩
  cases hf : svc.paymentsFetch req.paymentId with
  | error fetchError =>
    rw [herr fetchError hf]
    exact ⟨[], rfl, by simp⟩
  | ok p =>
    rw [hok p hf]
    obtain ⟨extra, hextra, honly⟩ := afterCapture_calls svc store req p
      [.paymentsCapture req.paymentId (times100 req.amount) "INR", .paymentsFetch req.paymentId]
    refine ⟨extra, by rw [hextra]; rfl, ?_⟩
    intro id hmem
    rcases honly _ hmem with ⟨file, folder, h⟩ | ⟨url, h⟩ <;> cases h

/-- C3 at concrete requests: the capture is rejected as already captured; when the fetch
returns the captured payment the request ends as a success, and when the fetch times out
it is the timeout that is reported. -/
theorem c3_already_captured_fetches_witness :
    captureHandler
        { sampleServices with paymentsCapture := fun _ _ _ => .error alreadyCapturedError }
        [] sampleRequest =
      { response := successResponse "https://media.example/custom_shirts/1.png",
        calls := [.paymentsCapture "pay_1" (.int 49900) "INR", .paymentsFetch "pay_1",
          .upload "data:image/png;base64,AAAA" "custom_shirts",
          .save "https://media.example/custom_shirts/1.png"],
        store := [{ url := "https://media.example/custom_shirts/1.png" }] } ∧
    captureHandler
        { sampleServices with
          paymentsCapture := fun _ _ _ => .error alreadyCapturedError,
          paymentsFetch := fun _ => .error timeoutError }
        [] sampleRequest =
      { response := { status := 500, body := .json (.obj [("error", .str "Request Timeout")]) },
        calls := [.paymentsCapture "pay_1" (.int 49900) "INR", .paymentsFetch "pay_1"],
        store := [] } :=
  ⟨((c3_already_captured_fetches
        { sampleServices with paymentsCapture := fun _ _ _ => .error alreadyCapturedError }
        [] sampleRequest alreadyCapturedError (by decide) rfl rfl).2.1
      { status := .str "captured" } rfl).trans rfl,
   ((c3_already_captured_fetches
        { sampleServices with
          paymentsCapture := fun _ _ _ => .error alreadyCapturedError,
          paymentsFetch := fun _ => .error timeoutError }
        [] sampleRequest alreadyCapturedError (by decide) rfl rfl).2.2
      timeoutError rfl).trans rfl⟩

/-- C4 (defect of line 93): the declared subtype `svg+xml` is not matched by `\w+`, so
for the image `data:image/svg+xml;base64,AAAA` nothing is stripped and the upload client
receives the whole data URL behind the PNG head,
`data:image/png;base64,data:image/svg+xml;base64,AAAA`, where the claim requires
`data:image/png;base64,AAAA`. -/
theorem c4_svg_subtype_not_stripped :
    (captureHandler sampleServices []
        { paymentId := "pay_1", amount := 499,
          image := .str ("data:image/" ++ "svg+xml" ++ ";base64," ++ "AAAA") }).calls =
      [.paymentsCapture "pay_1" (.int 49900) "INR",
        .upload "data:image/png;base64,data:image/svg+xml;base64,AAAA" "custom_shirts",
        .save "https://media.example/custom_shirts/1.png"] ∧
    "data:image/png;base64,data:image/svg+xml;base64,AAAA" ≠ "data:image/png;base64," ++ "AAAA" := by
  decide

/-- Line 93 on the subtypes that the pattern does match: for every subtype `t` that is a
non-empty run of word characters (letters, digits, underscore) and every payload `b`, when
the capture handler reaches the upload step (payment of status "captured") with `image`
equal to `"data:image/" + t + ";base64," + b`, line 93 yields exactly `b`, the upload
client is called with `"data:image/png;base64," + b` and folder "custom_shirts", and with
no other file. -/
theorem c4_word_subtype_normalised (svc : Services) (store : List ImageRecord)
    (req : CaptureRequest) (p : Payment) (t b : String)
    (ht : t ≠ "") (hw : ∀ c ∈ t.toList, isWordChar c = true)
    (himg : req.image = .str ("data:image/" ++ t ++ ";base64," ++ b))
    (hpay : svc.paymentsCapture req.paymentId (times100 req.amount) "INR" = .ok p ∨
      ∃ e, svc.paymentsCapture req.paymentId (times100 req.amount) "INR" = .error e ∧
        alreadyCaptured e = true ∧ svc.paymentsFetch req.paymentId = .ok p)
    (hstatus : p.status = .str "captured") :
    base64Data ("data:image/" ++ t ++ ";base64," ++ b) = b ∧
    Call.upload ("data:image/png;base64," ++ b) "custom_shirts"
      ∈ (captureHandler svc store req).calls ∧
    ∀ file folder, Call.upload file folder ∈ (captureHandler svc store req).calls →
      file = "data:image/png;base64," ++ b ∧ folder = "custom_shirts" := by
  have hb := base64Data_word t b ht hw
  have hne : "data:image/" ++ t ++ ";base64," ++ b ≠ "" := by
    intro h
    have h2 := congrArg String.length h
    simp only [String.length_append] at h2
    have h3 : "data:image/".length = 11 := by decide
    have h4 : "".length = 0 := by decide
    omega
  have hpre : imagePreview req.image = .ok () := by rw [himg]; exact imagePreview_str _
  have hstep := captureStep_obtained svc req p hpay
  have hno := captureStep_calls_no_upload svc req
  obtain ⟨tail, hcalls, htail⟩ := afterCapture_string_calls svc store req p
    (captureStep svc req).2 _ hstatus himg hne
  rw [captureHandler_step_ok svc store req p hpre hstep, hcalls, hb]
  refine ⟨rfl, by simp, ?_⟩
  intro file folder
  simp only [List.mem_append, List.mem_cons]
  rintro (h | h | h)
  · exact absurd h (hno file folder)
  · cases h; exact ⟨rfl, rfl⟩
  · obtain ⟨url, hurl⟩ := htail _ h
    cases hurl

/-- The example of the specification: `data:image/jpeg;base64,AAAA` is uploaded as
`data:image/png;base64,AAAA`. -/
theorem c4_word_subtype_normalised_witness :
    base64Data ("data:image/" ++ "jpeg" ++ ";base64," ++ "AAAA") = "AAAA" ∧
    Call.upload ("data:image/png;base64," ++ "AAAA") "custom_shirts"
      ∈ (captureHandler sampleServices []
          { paymentId := "pay_1", amount := 499,
            image := .str ("data:image/" ++ "jpeg" ++ ";base64," ++ "AAAA") }).calls :=
  ⟨(c4_word_subtype_normalised sampleServices []
      { paymentId := "pay_1", amount := 499,
        image := .str ("data:image/" ++ "jpeg" ++ ";base64," ++ "AAAA") }
      { status := .str "captured" } "jpeg" "AAAA" (by decide) (by decide) rfl
      (Or.inl rfl) rfl).1,
   (c4_word_subtype_normalised sampleServices []
      { paymentId := "pay_1", amount := 499,
        image := .str ("data:image/" ++ "jpeg" ++ ";base64," ++ "AAAA") }
      { status := .str "captured" } "jpeg" "AAAA" (by decide) (by decide) rfl
      (Or.inl rfl) rfl).2.1⟩

/-- C5: in a capture request whose capture step produced a payment of status "captured",
whose `image` is a non-empty string `s`, whose upload returns the secure URL `u` and whose
save succeeds: the calls after the capture step are one upload, with folder
"custom_shirts", and one save; exactly one Image Record is added to the collection, with
`url` equal to `u`; the response is 200 with the body
`{ message: "Payment successful and image uploaded", imageUrl: u }`. -/
theorem c5_full_success (svc : Services) (store : List ImageRecord)
    (req : CaptureRequest) (p : Payment) (s u : String)
    (hpay : svc.paymentsCapture req.paymentId (times100 req.amount) "INR" = .ok p ∨
      ∃ e, svc.paymentsCapture req.paymentId (times100 req.amount) "INR" = .error e ∧
        alreadyCaptured e = true ∧ svc.paymentsFetch req.paymentId = .ok p)
    (hstatus : p.status = .str "captured")
    (himg : req.image = .str s) (hs : s ≠ "")
    (hup : svc.upload ("data:image/png;base64," ++ base64Data s) "custom_shirts"
      = .ok { secure_url := u })
    (hsave : svc.save store { url := u } = .ok ()) :
    (captureHandler svc store req).response =
      { status := 200,
        body := .json (.obj [("message", .str "Payment successful and image uploaded"),
          ("imageUrl", .str u)]) } ∧
    (captureHandler svc store req).calls = (captureStep svc req).2 ++
      [.upload ("data:image/png;base64," ++ base64Data s) "custom_shirts", .save u] ∧
    (∀ file folder, Call.upload file folder ∈ (captureHandler svc store req).calls →
      file = "data:image/png;base64," ++ base64Data s ∧ folder = "custom_shirts") ∧
    (captureHandler svc store req).calls.count
      (.upload ("data:image/png;base64," ++ base64Data s) "custom_shirts") = 1 ∧
    (captureHandler svc store req).calls.count (.save u) = 1 ∧
    (∀ url, Call.save url ∈ (captureHandler svc store req).calls → url = u) ∧
    (captureHandler svc store req).store = store ++ [{ url := u }] := by
  have hpre : imagePreview req.image = .ok () := by rw [himg]; exact imagePreview_str _
  have hstep := captureStep_obtained svc req p hpay
  have hnoUp := captureStep_calls_no_upload svc req
  have hnoSave := captureStep_calls_no_save svc req
  have hout : captureHandler svc store req =
      { response := successResponse u,
        calls := (captureStep svc req).2 ++
          [.upload ("data:image/png;base64," ++ base64Data s) "custom_shirts", .save u],
        store := store ++ [{ url := u }] } := by
    rw [captureHandler_step_ok svc store req p hpre hstep,
      afterCapture_string svc store req p _ s hstatus himg hs, hup]
    simp only [hsave]
  rw [hout]
  refine ⟨rfl, rfl, ?_, ?_, ?_, ?_, rfl⟩
  · intro file folder
    simp only [List.mem_append, List.mem_cons, List.mem_singleton]
    rintro (h | h | h | h)
    · exact absurd h (hnoUp file folder)
    · cases h; exact ⟨rfl, rfl⟩
    · cases h
    · cases h
  · simp only [List.count_append]
    rw [List.count_eq_zero_of_not_mem (hnoUp _ _)]
    simp
  · simp only [List.count_append]
    rw [List.count_eq_zero_of_not_mem (hnoSave _)]
    simp
  · intro url
    simp only [List.mem_append, List.mem_cons, List.mem_singleton]
    rintro (h | h | h | h)
    · exact absurd h (hnoSave url)
    · cases h
    · cases h; rfl
    · cases h

/-- C5 at a concrete request, starting from a collection that already holds one record. -/
theorem c5_full_success_witness :
    (captureHandler sampleServices [{ url := "https://media.example/custom_shirts/0.png" }]
        sampleRequest).response =
      { status := 200,
        body := .json (.obj [("message", .str "Payment successful and image uploaded"),
          ("imageUrl", .str "https://media.example/custom_shirts/1.png")]) } ∧
    (captureHandler sampleServices [{ url := "https://media.example/custom_shirts/0.png" }]
        sampleRequest).store =
      [{ url := "https://media.example/custom_shirts/0.png" },
        { url := "https://media.example/custom_shirts/1.png" }] :=
  ⟨(c5_full_success sampleServices [{ url := "https://media.example/custom_shirts/0.png" }]
      sampleRequest { status := .str "captured" } "data:image/jpeg;base64,AAAA"
      "https://media.example/custom_shirts/1.png" (Or.inl rfl) rfl rfl (by decide) rfl rfl).1,
   (c5_full_success sampleServices [{ url := "https://media.example/custom_shirts/0.png" }]
      sampleRequest { status := .str "captured" } "data:image/jpeg;base64,AAAA"
      "https://media.example/custom_shirts/1.png" (Or.inl rfl) rfl rfl (by decide) rfl
      rfl).2.2.2.2.2.2⟩

/-- C6: in the capture handler each upstream failure other than the already-captured
capture error ends the request at once with the response of the outer `catch` for that
failure, the calls made being those up to and including the failing one, each made once,
and the Image Records unchanged:
(a) a capture error that is not the already-captured one;
(b) a failure of the fallback fetch;
(c) an upload error;
(d) a save error.
The response of the outer `catch` for a failure `e` is 500 with the body `{ error: m }`,
where `m` is `e.message` when that is truthy (for a string: non-empty) and
"Error in payment capture process" otherwise. -/
theorem c6_upstream_failure_is_500 (svc : Services) (store : List ImageRecord)
    (req : CaptureRequest) :
    (∀ e, Call.paymentsCapture req.paymentId (times100 req.amount) "INR"
        ∈ (captureHandler svc store req).calls →
      svc.paymentsCapture req.paymentId (times100 req.amount) "INR" = .error e →
      alreadyCaptured e = false →
      captureHandler svc store req =
        { response := errorResponse e,
          calls := [.paymentsCapture req.paymentId (times100 req.amount) "INR"],
          store := store }) ∧
    (∀ e fetchError, Call.paymentsCapture req.paymentId (times100 req.amount) "INR"
        ∈ (captureHandler svc store req).calls →
      svc.paymentsCapture req.paymentId (times100 req.amount) "INR" = .error e →
      alreadyCaptured e = true →
      svc.paymentsFetch req.paymentId = .error fetchError →
      captureHandler svc store req =
        { response := errorResponse fetchError,
          calls := [.paymentsCapture req.paymentId (times100 req.amount) "INR",
            .paymentsFetch req.paymentId],
          store := store }) ∧
    (∀ p s e, (captureStep svc req).1 = .ok p → p.status = .str "captured" →
      req.image = .str s → s ≠ "" →
      svc.upload ("data:image/png;base64," ++ base64Data s) "custom_shirts" = .error e →
      captureHandler svc store req =
        { response := errorResponse e,
          calls := (captureStep svc req).2 ++
            [.upload ("data:image/png;base64," ++ base64Data s) "custom_shirts"],
          store := store }) ∧
    (∀ p s u e, (captureStep svc req).1 = .ok p → p.status = .str "captured" →
      req.image = .str s → s ≠ "" →
      svc.upload ("data:image/png;base64," ++ base64Data s) "custom_shirts"
        = .ok { secure_url := u } →
      svc.save store { url := u } = .error e →
      captureHandler svc store req =
        { response := errorResponse e,
          calls := (captureStep svc req).2 ++
            [.upload ("data:image/png;base64," ++ base64Data s) "custom_shirts", .save u],
          store := store }) ∧
    (∀ e : JsError,
      errorResponse e =
        { status := 500,
          body := .json (.obj [("error",
            if e.message.truthy = true then e.message
            else .str "Error in payment capture process")]) } ∧
      (∀ m, e.message = .str m → m ≠ "" →
        errorResponse e = { status := 500, body := .json (.obj [("error", .str m)]) }) ∧
      (e.message = .undefined ∨ e.message = .str "" →
        errorResponse e =
          { status := 500,
            body := .json (.obj [("error", .str "Error in payment capture process")]) })) := by
  refine ⟨?_, ?_, ?_, ?_, ?_⟩
  · intro e hcall hfail hno
    have hpre := preview_ok_of_call svc store req _ hcall
    have hcs := captureStep_other_error svc req e hfail hno
    have h1 : (captureStep svc req).1 = .error e := by rw [hcs]
    rw [captureHandler_step_error svc store req e hpre h1, hcs]
  · intro e fetchError hcall hfail hyes hfetch
    have hpre := preview_ok_of_call svc store req _ hcall
    have hcs := captureStep_fetch svc req e hfail hyes
    have h1 : (captureStep svc req).1 = .error fetchError := by rw [hcs, hfetch]
    rw [captureHandler_step_error svc store req fetchError hpre h1, hcs]
  · intro p s e hstep hstatus himg hs hup
    have hpre : imagePreview req.image = .ok () := by rw [himg]; exact imagePreview_str _
    rw [captureHandler_step_ok svc store req p hpre hstep,
      afterCapture_string svc store req p _ s hstatus himg hs, hup]
  · intro p s u e hstep hstatus himg hs hup hsave
    have hpre : imagePreview req.image = .ok () := by rw [himg]; exact imagePreview_str _
    rw [captureHandler_step_ok svc store req p hpre hstep,
      afterCapture_string svc store req p _ s hstatus himg hs, hup]
    simp only [hsave]
  · intro e
    refine ⟨rfl, ?_, ?_⟩
    · intro m hm hne
      simp [errorResponse, hm, JsVal.truthy, hne]
    · rintro (h | h) <;> simp [errorResponse, h, JsVal.truthy]

/-- C6 at concrete requests: a capture rejected for an unknown id, a failed fallback
fetch, an upload that times out, a save that times out. -/
theorem c6_upstream_failure_is_500_witness :
    captureHandler
        { sampleServices with paymentsCapture := fun _ _ _ => .error badRequestError }
        [] sampleRequest =
      { response :=
          { status := 500,
            body := .json (.obj [("error", .str "Error in payment capture process")]) },
        calls := [.paymentsCapture "pay_1" (.int 49900) "INR"], store := [] } ∧
    captureHandler
        { sampleServices with
          paymentsCapture := fun _ _ _ => .error alreadyCapturedError,
          paymentsFetch := fun _ => .error timeoutError }
        [] sampleRequest =
      { response := { status := 500, body := .json (.obj [("error", .str "Request Timeout")]) },
        calls := [.paymentsCapture "pay_1" (.int 49900) "INR", .paymentsFetch "pay_1"],
        store := [] } ∧
    captureHandler { sampleServices with upload := fun _ _ => .error timeoutError }
        [] sampleRequest =
      { response := { status := 500, body := .json (.obj [("error", .str "Request Timeout")]) },
        calls := [.paymentsCapture "pay_1" (.int 49900) "INR",
          .upload "data:image/png;base64,AAAA" "custom_shirts"],
        store := [] } ∧
    captureHandler { sampleServices with save := fun _ _ => .error timeoutError }
        [] sampleRequest =
      { response := { status := 500, body := .json (.obj [("error", .str "Request Timeout")]) },
        calls := [.paymentsCapture "pay_1" (.int 49900) "INR",
          .upload "data:image/png;base64,AAAA" "custom_shirts",
          .save "https://media.example/custom_shirts/1.png"],
        store := [] } ∧
    errorResponse timeoutError =
      { status := 500, body := .json (.obj [("error", .str "Request Timeout")]) } ∧
    errorResponse badRequestError =
      { status := 500,
        body := .json (.obj [("error", .str "Error in payment capture process")]) } :=
  ⟨((c6_upstream_failure_is_500
        { sampleServices with paymentsCapture := fun _ _ _ => .error badRequestError }
        [] sampleRequest).1 badRequestError (by decide) rfl rfl).trans rfl,
   ((c6_upstream_failure_is_500
        { sampleServices with
          paymentsCapture := fun _ _ _ => .error alreadyCapturedError,
          paymentsFetch := fun _ => .error timeoutError }
        [] sampleRequest).2.1 alreadyCapturedError timeoutError (by decide) rfl rfl
        rfl).trans rfl,
   ((c6_upstream_failure_is_500 { sampleServices with upload := fun _ _ => .error timeoutError }
        [] sampleRequest).2.2.1 { status := .str "captured" } "data:image/jpeg;base64,AAAA"
        timeoutError rfl rfl rfl (by decide) rfl).trans rfl,
   ((c6_upstream_failure_is_500 { sampleServices with save := fun _ _ => .error timeoutError }
        [] sampleRequest).2.2.2.1 { status := .str "captured" } "data:image/jpeg;base64,AAAA"
        "https://media.example/custom_shirts/1.png" timeoutError rfl rfl rfl (by decide) rfl
        rfl).trans rfl,
   ((c6_upstream_failure_is_500 sampleServices [] sampleRequest).2.2.2.2 timeoutError).2.1
      "Request Timeout" rfl (by decide),
   ((c6_upstream_failure_is_500 sampleServices [] sampleRequest).2.2.2.2 badRequestError).2.2
      (Or.inl rfl)⟩

/-- C7: whatever the request to one of the four handlers, the Image Records afterwards
are either the records before, or the records before followed by one new record, and the
latter only for a capture request answered by the 200 success response carrying the URL
of that record. Hence every request whose outcome is not that success response (order
creation, key exposure, root, and every 400 or 500 outcome of capture) leaves the records
unchanged, and the records before are always kept, in place: none is updated or
deleted. -/
theorem c7_records_written_only_by_success (env : Env) (svc : Services)
    (store : List ImageRecord) (req : Request) :
    ((handle env svc store req).store = store ∨
      ∃ r u, req = .capture r ∧
        (handle env svc store req).response =
          { status := 200,
            body := .json (.obj [("message", .str "Payment successful and image uploaded"),
              ("imageUrl", .str u)]) } ∧
        (handle env svc store req).store = store ++ [{ url := u }]) ∧
    ((¬ ∃ r u, req = .capture r ∧
        (handle env svc store req).response =
          { status := 200,
            body := .json (.obj [("message", .str "Payment successful and image uploaded"),
              ("imageUrl", .str u)]) }) →
      (handle env svc store req).store = store) ∧
    store <+: (handle env svc store req).store := by
  have hmain : (handle env svc store req).store = store ∨
      ∃ r u, req = .capture r ∧
        (handle env svc store req).response = successResponse u ∧
        (handle env svc store req).store = store ++ [{ url := u }] := by
    cases req with
    | orders now r =>
      left
      simp only [handle, ordersHandler]
      split <;> rfl
    | capture r =>
      rcases captureHandler_store svc store r with h | ⟨u, h1, h2⟩
      · exact Or.inl h
      · exact Or.inr ⟨r, u, rfl, h1, h2⟩
    | key => exact Or.inl rfl
    | root => exact Or.inl rfl
  refine ⟨hmain, ?_, ?_⟩
  · intro hnot
    rcases hmain with h | ⟨r, u, h1, h2, _⟩
    · exact h
    · exact absurd ⟨r, u, h1, h2⟩ hnot
  · rcases hmain with h | ⟨r, u, _, _, h3⟩
    · rw [h]
    · rw [h3]
      exact List.prefix_append _ _

/-- C7 at a concrete request: the payment is captured, the upload then fails; the answer is
500 and the one record of the collection is still the only one. -/
theorem c7_records_written_only_by_success_witness :
    (handle sampleEnv { sampleServices with upload := fun _ _ => .error timeoutError }
        [{ url := "https://media.example/custom_shirts/0.png" }]
        (.capture sampleRequest)).store =
      [{ url := "https://media.example/custom_shirts/0.png" }] :=
  (c7_records_written_only_by_success sampleEnv
      { sampleServices with upload := fun _ _ => .error timeoutError }
      [{ url := "https://media.example/custom_shirts/0.png" }]
      (.capture sampleRequest)).2.1
    (fun ⟨_, _, _, h⟩ =>
      absurd (show (500 : Nat) = 200 from congrArg Response.status h) (by decide))

/-- C8 (as stated, refuted): for the positive integer amount 900719925474099 the product
of doubles is 90071992547409904, and that, not 90071992547409900, is the amount of the
create-order call and of the capture call. -/
theorem c8_large_amount_counterexample :
    (ordersHandler sampleServices [] 1700000000000 { amount := 900719925474099 }).calls =
      [.ordersCreate { amount := .int 90071992547409904, currency := "INR",
                       receipt := "receipt_order_1700000000000" }] ∧
    (captureHandler sampleServices []
        { paymentId := "pay_1", amount := 900719925474099, image := .undefined }).calls =
      [.paymentsCapture "pay_1" (.int 90071992547409904) "INR"] ∧
    JsNumber.int 90071992547409904 ≠ JsNumber.int (900719925474099 * 100) := by
  decide

/-- C8 (amended): for every positive integer amount `a` with `a * 100` at most `2 ^ 53`
the product of doubles is exact, so the order handler calls create-order exactly once with
amount `a * 100`, currency "INR" and the receipt identifier, and every capture call of the
capture handler has the payment id of the path, amount `a * 100` and currency "INR", the
capture call being made first and exactly once when `image` is absent or a string. For
every integer amount the amount sent is the double product of the body amount and 100, and
when the gateway returns an order the response of the order handler is 200 with that
order as its body. -/
theorem c8_amount_in_minor_units (svc : Services) (store : List ImageRecord) :
    (∀ a : Int, 0 < a → a * 100 ≤ 9007199254740992 → times100 a = .int (a * 100)) ∧
    (∀ (now : Nat) (a : Int), 0 < a → a * 100 ≤ 9007199254740992 →
      (ordersHandler svc store now { amount := a }).calls =
        [.ordersCreate { amount := .int (a * 100), currency := "INR",
                         receipt := receiptId now }]) ∧
    (∀ (req : CaptureRequest) (id : String) (amount : JsNumber) (currency : String),
      0 < req.amount → req.amount * 100 ≤ 9007199254740992 →
      Call.paymentsCapture id amount currency ∈ (captureHandler svc store req).calls →
      id = req.paymentId ∧ amount = .int (req.amount * 100) ∧ currency = "INR") ∧
    (∀ req : CaptureRequest, 0 < req.amount → req.amount * 100 ≤ 9007199254740992 →
      (req.image = .undefined ∨ ∃ s, req.image = .str s) →
      ∃ rest, (captureHandler svc store req).calls =
          Call.paymentsCapture req.paymentId (.int (req.amount * 100)) "INR" :: rest ∧
        ∀ id amount currency, Call.paymentsCapture id amount currency ∉ rest) ∧
    (∀ (now : Nat) (a : Int),
      (ordersHandler svc store now { amount := a }).calls =
        [.ordersCreate { amount := times100 a, currency := "INR",
                         receipt := receiptId now }]) ∧
    (∀ (now : Nat) (a : Int) (order : JsVal),
      svc.ordersCreate { amount := times100 a, currency := "INR", receipt := receiptId now }
        = .ok order →
      (ordersHandler svc store now { amount := a }).response =
        { status := 200, body := .json order }) ∧
    (∀ (req : CaptureRequest) (id : String) (amount : JsNumber) (currency : String),
      Call.paymentsCapture id amount currency ∈ (captureHandler svc store req).calls →
      id = req.paymentId ∧ amount = times100 req.amount ∧ currency = "INR") ∧
    (∀ req : CaptureRequest, (req.image = .undefined ∨ ∃ s, req.image = .str s) →
      ∃ rest, (captureHandler svc store req).calls =
          Call.paymentsCapture req.paymentId (times100 req.amount) "INR" :: rest ∧
        ∀ id amount currency, Call.paymentsCapture id amount currency ∉ rest) := by
  have hcreate : ∀ (now : Nat) (a : Int),
      (ordersHandler svc store now { amount := a }).calls =
        [.ordersCreate { amount := times100 a, currency := "INR",
                         receipt := receiptId now }] := by
    intro now a
    simp only [ordersHandler]
    split <;> rfl
  have hall : ∀ (req : CaptureRequest) (id : String) (amount : JsNumber) (currency : String),
      Call.paymentsCapture id amount currency ∈ (captureHandler svc store req).calls →
      id = req.paymentId ∧ amount = times100 req.amount ∧ currency = "INR" := by
    intro req id amount currency hmem
    rcases captureHandler_capture_calls svc store req with h | ⟨rest, h, hnone⟩
    · rw [h] at hmem
      simp at hmem
    · rw [h] at hmem
      rcases List.mem_cons.mp hmem with h2 | h2
      · cases h2
        exact ⟨rfl, rfl, rfl⟩
      · exact absurd h2 (hnone id amount currency)
  have hfirst : ∀ req : CaptureRequest, (req.image = .undefined ∨ ∃ s, req.image = .str s) →
      ∃ rest, (captureHandler svc store req).calls =
          Call.paymentsCapture req.paymentId (times100 req.amount) "INR" :: rest ∧
        ∀ id amount currency, Call.paymentsCapture id amount currency ∉ rest := by
    intro req himg
    have hpre : imagePreview req.image = .ok () := by
      rcases himg with h | ⟨s, h⟩
      · rw [h]; rfl
      · rw [h]; exact imagePreview_str s
    rcases captureHandler_capture_calls svc store req with h | h
    · have hmem : Call.paymentsCapture req.paymentId (times100 req.amount) "INR"
          ∈ (captureHandler svc store req).calls := by
        cases hstep : (captureStep svc req).1 with
        | error e =>
          rw [captureHandler_step_error svc store req e hpre hstep]
          exact captureStep_calls_head svc req
        | ok p =>
          rw [captureHandler_step_ok svc store req p hpre hstep]
          obtain ⟨extra, hextra, _⟩ :=
            afterCapture_calls svc store req p (captureStep svc req).2
          rw [hextra]
          exact List.mem_append_left _ (captureStep_calls_head svc req)
      rw [h] at hmem
      simp at hmem
    · exact h
  refine ⟨times100_exact, ?_, ?_, ?_, hcreate, ?_, hall, hfirst⟩
  · intro now a hpos hle
    rw [hcreate now a, times100_exact a hpos hle]
  · intro req id amount currency hpos hle hmem
    rw [← times100_exact req.amount hpos hle]
    exact hall req id amount currency hmem
  · intro req hpos hle himg
    rw [← times100_exact req.amount hpos hle]
    exact hfirst req himg
  · intro now a order h
    simp only [ordersHandler, h]

/-- C8 (amended) at concrete requests: an order for 499 rupees and the capture of 499
rupees. -/
theorem c8_amount_in_minor_units_witness :
    times100 499 = .int 49900 ∧
    (ordersHandler sampleServices [] 1700000000000 { amount := 499 }).calls =
      [.ordersCreate { amount := .int 49900, currency := "INR",
                       receipt := "receipt_order_1700000000000" }] ∧
    (ordersHandler sampleServices [] 1700000000000 { amount := 499 }).response =
      { status := 200,
        body := .json (.obj [("id", .str "order_1"), ("amount", .num 49900),
          ("currency", .str "INR"), ("receipt", .str "receipt_order_1700000000000")]) } ∧
    (captureHandler sampleServices [] sampleRequest).calls.head? =
      some (.paymentsCapture "pay_1" (.int 49900) "INR") ∧
    ("pay_1" = sampleRequest.paymentId ∧ JsNumber.int 49900 = .int (sampleRequest.amount * 100) ∧
      "INR" = "INR") :=
  ⟨(c8_amount_in_minor_units sampleServices []).1 499 (by decide) (by decide),
   ((c8_amount_in_minor_units sampleServices []).2.1 1700000000000 499 (by decide)
      (by decide)).trans (by decide),
   ((c8_amount_in_minor_units sampleServices []).2.2.2.2.2.1 1700000000000 499 _ rfl).trans
      (by simp only [receiptId]; rfl),
   (match (c8_amount_in_minor_units sampleServices []).2.2.2.1 sampleRequest (by decide)
        (by decide) (Or.inr ⟨_, rfl⟩) with
    | ⟨_, h, _⟩ => by rw [h]; rfl),
   (c8_amount_in_minor_units sampleServices []).2.2.1 sampleRequest "pay_1" (.int 49900) "INR"
      (by decide) (by decide) (by decide)⟩

/-- C9: for every millisecond timestamp `t` the receipt identifier is "receipt_order_"
followed by the decimal rendering of `t` (decimal digits only, of base ten value `t`,
without a leading zero when `t` is positive), it is the receipt that order creation sends
to the gateway, and two different timestamps give two different receipt identifiers. -/
theorem c9_receipt_identifier (svc : Services) (store : List ImageRecord) :
    (∀ t : Nat, receiptId t = "receipt_order_" ++ toString t ∧
      (∀ c ∈ (toString t).toList, c.isDigit = true) ∧
      List.foldl (fun acc c => acc * 10 + (c.toNat - 48)) 0 (toString t).toList = t ∧
      (0 < t → (toString t).toList.head? ≠ some '0')) ∧
    (∀ (t : Nat) (req : OrderRequest),
      (ordersHandler svc store t req).calls =
        [.ordersCreate
          { amount := times100 req.amount, currency := "INR",
            receipt := "receipt_order_" ++ toString t }]) ∧
    (∀ t₁ t₂ : Nat, t₁ ≠ t₂ → receiptId t₁ ≠ receiptId t₂) := by
  refine ⟨?_, ?_, ?_⟩
  · intro t
    exact ⟨rfl, isDigit_toString t, decode_toString t, head_toString t⟩
  · intro t req
    simp only [ordersHandler, receiptId]
    split <;> rfl
  · intro t₁ t₂ hne h
    exact hne (receiptId_injective t₁ t₂ h)

/-- C9 at two consecutive milliseconds. -/
theorem c9_receipt_identifier_witness :
    receiptId 1700000000000 = "receipt_order_1700000000000" ∧
    (toString 1700000000000).toList.head? ≠ some '0' ∧
    receiptId 1700000000000 ≠ receiptId 1700000000001 :=
  ⟨by decide,
   ((c9_receipt_identifier sampleServices []).1 1700000000000).2.2.2 (by decide),
   (c9_receipt_identifier sampleServices []).2.2 1700000000000 1700000000001 (by decide)⟩

/-- C10: the key handler always answers 200 with the body `{ key: k }`, `k` being the
value of `RAZORPAY_KEY_ID` (the string when the variable is set), makes no call and leaves
the records as they are; its response is the same under any two environments that agree on
`RAZORPAY_KEY_ID`, whatever the key secret, the other credentials, the collaborators and
the records are. -/
theorem c10_key_exposure :
    (∀ (env : Env) (svc : Services) (store : List ImageRecord),
      handle env svc store .key =
        { response :=
            { status := 200, body := .json (.obj [("key", envVal env.RAZORPAY_KEY_ID)]) },
          calls := [], store := store }) ∧
    (∀ (env : Env) (svc : Services) (store : List ImageRecord) (k : String),
      env.RAZORPAY_KEY_ID = some k →
      (handle env svc store .key).response =
        { status := 200, body := .json (.obj [("key", .str k)]) }) ∧
    (∀ (env₁ env₂ : Env) (svc₁ svc₂ : Services) (store₁ store₂ : List ImageRecord),
      env₁.RAZORPAY_KEY_ID = env₂.RAZORPAY_KEY_ID →
      (handle env₁ svc₁ store₁ .key).response = (handle env₂ svc₂ store₂ .key).response) := by
  refine ⟨?_, ?_, ?_⟩
  · intro env svc store
    rfl
  · intro env svc store k hk
    simp only [handle, keyHandler, hk, envVal]
  · intro env₁ env₂ svc₁ svc₂ store₁ store₂ h
    simp only [handle, keyHandler, h]

/-- C10 at two environments that share the key id and differ in every secret. -/
theorem c10_key_exposure_witness :
    (handle sampleEnv sampleServices [] .key).response =
      { status := 200, body := .json (.obj [("key", .str "rzp_test_1")]) } ∧
    (handle sampleEnv sampleServices [] .key).response =
      (handle
        { sampleEnv with RAZORPAY_KEY_SECRET := some "another-secret",
                         CLOUDINARY_API_SECRET := none }
        sampleServices [] .key).response :=
  ⟨c10_key_exposure.2.1 sampleEnv sampleServices [] "rzp_test_1" rfl,
   c10_key_exposure.2.2 sampleEnv
      { sampleEnv with RAZORPAY_KEY_SECRET := some "another-secret",
                       CLOUDINARY_API_SECRET := none }
      sampleServices sampleServices [] [] rfl⟩

end CustomArt
